import Mathlib

/-!
A shallow embedding of the `readrpl` tool from the wut-tools repository
(`src/readrpl/main.cpp`, `src/readrpl/verify.cpp`), together with theorems
settling structural claims about its validator passes.

File payloads and string tables are modelled as `List Nat` (byte values);
machine integers are `Nat` with explicit `% 2^32` at the points where the
C++ performs 32-bit arithmetic or casts.  Out-of-range byte reads (which in
C++ read whatever memory follows the buffer) are totalised to the byte 0.
-/

namespace ReadRpl

/-! ## Byte and big-endian primitives

The repository's `elf.h` (absent from `src/`) declares every on-disk field
through a big-endian wrapper (`be_val`, spec section 4.1).  We model a byte
buffer as `List Nat` and decode big-endian fields directly. -/

/-- Read one byte of a buffer; bytes past the end read as 0. -/
def readByte (data : List Nat) (off : Nat) : Nat :=
  (data.getD off 0) % 256

/-- Big-endian 16-bit read. -/
def readBE16 (data : List Nat) (off : Nat) : Nat :=
  readByte data off * 256 + readByte data (off + 1)

/-- Big-endian 32-bit read. -/
def readBE32 (data : List Nat) (off : Nat) : Nat :=
  ((readByte data off * 256 + readByte data (off + 1)) * 256
    + readByte data (off + 2)) * 256 + readByte data (off + 3)

/-- Null-terminated byte string starting at `off` inside a buffer
(`std::string_view` built from a `char *` into a payload). -/
def cString (data : List Nat) (off : Nat) : List Nat :=
  (data.drop off).takeWhile (· ≠ 0)

/-! ## ELF constants

Modelled from the spec: the repository's `elf.h` is not under `src/`; these
are the standard ELF / RPL constants it declares (section types, flags,
symbol types, reserved section indices), referenced by name throughout
`verify.cpp` and `main.cpp`. -/

def SHT_NULL : Nat := 0
def SHT_PROGBITS : Nat := 1
def SHT_SYMTAB : Nat := 2
def SHT_STRTAB : Nat := 3
def SHT_RELA : Nat := 4
def SHT_NOBITS : Nat := 8
def SHT_RPL_EXPORTS : Nat := 0x80000001
def SHT_RPL_IMPORTS : Nat := 0x80000002
def SHT_RPL_CRCS : Nat := 0x80000003
def SHT_RPL_FILEINFO : Nat := 0x80000004

def SHF_WRITE : Nat := 1
def SHF_ALLOC : Nat := 2
def SHF_EXECINSTR : Nat := 4
def SHF_DEFLATED : Nat := 0x08000000

def STT_OBJECT : Nat := 1
def STT_FUNC : Nat := 2
def STT_SECTION : Nat := 3
def STT_FILE : Nat := 4

def SHN_LORESERVE : Nat := 0xFF00

/-- `sizeof(elf::Symbol)` = 4 + 4 + 4 + 1 + 1 + 2 bytes. -/
def symbolEntSize : Nat := 16

/-- `sizeof(elf::Rela)` = 4 + 4 + 4 bytes. -/
def relaEntSize : Nat := 12

/-- `sizeof(elf::SectionHeader)`: ten 32-bit fields. -/
def sectionHeaderSize : Nat := 40

/-- `sizeof(elf::Header)` for ELF32. -/
def elfHeaderSize : Nat := 52

/-- `elf::HeaderMagic` = "\x7fELF". -/
def HeaderMagic : Nat := 0x7F454C46

def U32 : Nat := 2 ^ 32

/-! ## Container model (spec section 3; `elf.h` structures as used by
`main.cpp` / `verify.cpp`) -/

structure SectionHeader where
  name : Nat
  type : Nat
  flags : Nat
  addr : Nat
  offset : Nat
  size : Nat
  link : Nat
  info : Nat
  addralign : Nat
  entsize : Nat
  deriving Repr, DecidableEq

structure Section where
  header : SectionHeader
  name : List Nat
  data : List Nat
  deriving Repr, DecidableEq

/-- The fixed-size ELF header fields used by the tool. -/
structure ElfHeader where
  magic : Nat
  fileClass : Nat
  encoding : Nat
  elfVersion : Nat
  abi : Nat
  machine : Nat
  version : Nat
  entry : Nat
  phoff : Nat
  shoff : Nat
  flags : Nat
  ehsize : Nat
  phentsize : Nat
  phnum : Nat
  shentsize : Nat
  shnum : Nat
  shstrndx : Nat
  deriving Repr, DecidableEq

structure Rpl where
  header : ElfHeader
  sections : List Section
  fileSize : Nat
  deriving Repr, DecidableEq

def emptySectionHeader : SectionHeader :=
  ⟨0, 0, 0, 0, 0, 0, 0, 0, 0, 0⟩

def emptySection : Section :=
  ⟨emptySectionHeader, [], []⟩

/-- `rpl.sections[i]`; out-of-range indexing (undefined behaviour in the
C++) is totalised to an empty section. -/
def getSec (rpl : Rpl) (i : Nat) : Section :=
  rpl.sections.getD i emptySection

/-! ## CRC-32 (zlib)

zlib is an external collaborator; this is the standard reflected CRC-32
(polynomial 0xEDB88320) it implements.  `crc32 []` equals the zlib seed
`crc32(0, Z_NULL, 0) = 0`. -/

def crc32Poly : Nat := 0xEDB88320

def crc32Bit (c : Nat) : Nat :=
  if c % 2 = 1 then Nat.xor (c / 2) crc32Poly else c / 2

def crc32Byte (c b : Nat) : Nat :=
  crc32Bit (crc32Bit (crc32Bit (crc32Bit
    (crc32Bit (crc32Bit (crc32Bit (crc32Bit (Nat.xor c (b % 256)))))))))

/-- zlib `crc32(0, buf, len)`: seed 0, pre/post inverted. -/
def crc32 (data : List Nat) : Nat :=
  Nat.xor (data.foldl crc32Byte 0xFFFFFFFF) 0xFFFFFFFF

/-! ## Pass 2: CRC verification (`verifyCrcs`, verify.cpp lines 312-349) -/

/-- First section of type `SHT_RPL_CRCS` (the `for`/`break` search). -/
def findCrcSection (rpl : Rpl) : Option Section :=
  rpl.sections.find? (fun s => s.header.type = SHT_RPL_CRCS)

/-- `crcs[i].crc`: the CRC table is an array of 4-byte big-endian entries
(`elf::RplCrc`; spec section 3: "one 32-bit checksum per section, same
ordinal order as the section sequence"). -/
def crcTableEntry (crcData : List Nat) (i : Nat) : Nat :=
  readBE32 crcData (4 * i)

/-- The CRC the loop computes for one section: the seed 0 for the CRC
section itself or an empty payload, otherwise the zlib CRC-32 of the
decompressed payload. -/
def expectedCrc (s : Section) : Nat :=
  if s.header.type = SHT_RPL_CRCS ∨ s.data.length = 0 then 0
  else crc32 s.data

/-- The mismatches the loop reports: one `(index, stored, computed)` triple
per section ordinal whose computed CRC differs from the stored entry. -/
def crcMismatches (rpl : Rpl) (crcData : List Nat) : List (Nat × Nat × Nat) :=
  (List.range rpl.sections.length).filterMap fun i =>
    if expectedCrc (getSec rpl i) ≠ crcTableEntry crcData i then
      some (i, crcTableEntry crcData i, expectedCrc (getSec rpl i))
    else none

/-- `verifyCrcs`: result and reported mismatches.  Returns `(false, [])`
when no CRC-table section exists. -/
def verifyCrcs (rpl : Rpl) : Bool × List (Nat × Nat × Nat) :=
  match findCrcSection rpl with
  | none => (false, [])
  | some crcSec =>
    ((crcMismatches rpl crcSec.data).isEmpty, crcMismatches rpl crcSec.data)

/-! ## Pass 3: file-bounds layout (`verifyFileBounds`, verify.cpp lines
355-492) -/

/-- One bucket's running file-offset extent; initialised to
`min = 0xFFFFFFFF`, `max = 0`. -/
structure Extent where
  min : Nat
  max : Nat
  deriving Repr, DecidableEq

def initExtent : Extent := ⟨0xFFFFFFFF, 0⟩

/-- Grow an extent with a section covering
`[offset, offset + size)` (32-bit sum, as in the C++). -/
def growExtent (e : Extent) (off size : Nat) : Extent :=
  ⟨Nat.min e.min off, Nat.max e.max ((off + size) % U32)⟩

/-- Sections skipped by the classification loop. -/
def boundsSkip (h : SectionHeader) : Bool :=
  h.size = 0 ∨ h.type = SHT_RPL_FILEINFO ∨ h.type = SHT_RPL_CRCS ∨
    h.type = SHT_NOBITS ∨ h.type = SHT_RPL_IMPORTS

/-- The four raw extents (data, read, text, temp) accumulated over the
section list, before the empty-bucket fallbacks. -/
def rawExtents (rpl : Rpl) : Extent × Extent × Extent × Extent :=
  rpl.sections.foldl
    (fun acc s =>
      let (d, r, t, p) := acc
      if boundsSkip s.header then acc
      else if s.header.flags &&& SHF_EXECINSTR ≠ 0 ∧
              s.header.type ≠ SHT_RPL_EXPORTS then
        (d, r, growExtent t s.header.offset s.header.size, p)
      else if s.header.flags &&& SHF_ALLOC ≠ 0 then
        if s.header.flags &&& SHF_WRITE ≠ 0 then
          (growExtent d s.header.offset s.header.size, r, t, p)
        else
          (d, growExtent r s.header.offset s.header.size, t, p)
      else
        (d, r, t, growExtent p s.header.offset s.header.size))
    (initExtent, initExtent, initExtent, initExtent)

/-- The empty-bucket fallback chain: data defaults to the end of the
section-header table (`shnum * shentsize + shoff`, 32-bit), read to
`dataMax`, text to `readMax`, temp to `textMax`. -/
def fallbackExtents (rpl : Rpl) : Extent × Extent × Extent × Extent :=
  let (d0, r0, t0, p0) := rawExtents rpl
  let d := if d0.min = 0xFFFFFFFF then
      let m := (rpl.header.shnum * rpl.header.shentsize + rpl.header.shoff) % U32
      (⟨m, m⟩ : Extent)
    else d0
  let r := if r0.min = 0xFFFFFFFF then (⟨d.max, d.max⟩ : Extent) else r0
  let t := if t0.min = 0xFFFFFFFF then (⟨r.max, r.max⟩ : Extent) else t0
  let p := if p0.min = 0xFFFFFFFF then (⟨t.max, t.max⟩ : Extent) else p0
  (d, r, t, p)

/-- The eleven comparisons of `verifyFileBounds` (each `if` sets
`result = false`). -/
def checkExtents (shoff : Nat) (d r t p : Extent) : Bool :=
  decide (shoff ≤ d.min) && decide (d.min ≤ d.max) &&
  decide (d.min ≤ r.min) && decide (d.max ≤ r.min) &&
  decide (r.min ≤ r.max) && decide (r.min ≤ t.min) &&
  decide (r.max ≤ t.min) && decide (t.min ≤ t.max) &&
  decide (t.min ≤ p.min) && decide (t.max ≤ p.min) &&
  decide (p.min ≤ p.max)

def verifyFileBounds (rpl : Rpl) : Bool :=
  let (d, r, t, p) := fallbackExtents rpl
  checkExtents rpl.header.shoff d r t p

/-! ## Pass 4: relocation-type whitelist (`verifyRelocationTypes`,
verify.cpp lines 499-555) -/

/-- Modelled from the spec: "a fixed whitelist of [20] types known to be
supported by the target loader".  The named constants (`R_PPC_NONE` …
`R_PPC_GHS_REL16_LO`) live in the repository's `elf.h`, absent from
`src/`; the values are the standard PowerPC relocation numbers they
denote.  Only their identity matters to the claims. -/
def relocWhitelist : List Nat :=
  [0, 1, 4, 5, 6, 10, 11, 68, 78, 109, 116,
   180, 181, 182, 183, 184, 185, 251, 252, 253]

/-- The relocation type of record `i` in a relocation-table payload: low
8 bits of the packed `info` field (second 32-bit field of `elf::Rela`). -/
def relaType (data : List Nat) (i : Nat) : Nat :=
  readBE32 data (i * relaEntSize + 4) % 256

/-- Every relocation type carried by the container's relocation-table
sections, in record order (multiplicity preserved). -/
def allRelocTypes (rpl : Rpl) : List Nat :=
  (rpl.sections.filter (fun s => s.header.type = SHT_RELA)).flatMap
    fun s => (List.range (s.data.length / relaEntSize)).map (relaType s.data)

/-- The `unordered_set` accumulation: a type is appended the first time it
is seen outside the whitelist. -/
def collectUnsupported (ts : List Nat) : List Nat :=
  ts.foldl (fun acc t =>
    if t ∈ relocWhitelist ∨ t ∈ acc then acc else acc ++ [t]) []

/-- `verifyRelocationTypes`: passes iff no unsupported type was collected;
the second component is the reported-once list. -/
def verifyRelocationTypes (rpl : Rpl) : Bool × List Nat :=
  let u := collectUnsupported (allRelocTypes rpl)
  (u.isEmpty, u)

/-! ## Pass 5: section alignment (`verifySectionAlignment`, verify.cpp
lines 561-575) -/

/-- Modelled from the spec: `align_check` comes from a utility header
absent from `src/`; spec section 4.3 pass 5: "its virtual address must be
a multiple of its declared alignment (alignment 0 or 1 always passes)". -/
def alignCheck (addr align : Nat) : Bool :=
  align ≤ 1 ∨ addr % align = 0

def verifySectionAlignment (rpl : Rpl) : Bool :=
  rpl.sections.all fun s => alignCheck s.header.addr s.header.addralign

/-! ## Pass 6: section order (`verifySectionOrder`, verify.cpp lines
578-600)

The C++ indexes `rpl.sections[shnum - 1]` and `[shnum - 2]` before any
check; `shnum - 1` is computed in (promoted) `int` arithmetic and then
converted to the vector's index type, so for `shnum < 2` the access is
out of the sequence.  The embedding makes the lookup total via `Option`:
`none` is the (C++-undefined) out-of-range branch. -/

def getSecInt (rpl : Rpl) (i : Int) : Option Section :=
  if h : 0 ≤ i ∧ i.toNat < rpl.sections.length then
    some (rpl.sections.get ⟨i.toNat, h.2⟩)
  else none

/-- The diagnostic condition for one of the two inspected sections. -/
def orderDiag (expectedType : Nat) (s : Section) : Bool :=
  s.header.type ≠ expectedType ∨ s.header.flags &&& SHF_DEFLATED ≠ 0

/-- `verifySectionOrder`: the boolean result together with the two
diagnostic flags (last-section finding, penultimate-section finding).
The function returns `true` unconditionally once the two lookups
succeed. -/
def verifySectionOrder (rpl : Rpl) : Option (Bool × Bool × Bool) :=
  match getSecInt rpl ((rpl.header.shnum : Int) - 1),
        getSecInt rpl ((rpl.header.shnum : Int) - 2) with
  | some lastSec, some penSec =>
    some (true, orderDiag SHT_RPL_FILEINFO lastSec,
          orderDiag SHT_RPL_CRCS penSec)
  | _, _ => none

/-! ## Pass 1 helpers: symbol-table check (`sValidateSymbolTable`,
verify.cpp lines 77-180) -/

/-- 32-bit wrap-around subtraction (`uint32_t` arithmetic). -/
def sub32 (a b : Nat) : Nat :=
  (a % U32 + (U32 - b % U32)) % U32

/-- The ASCII bytes of the one permitted symbol name, `"_SDA_BASE_"`
(`_ S D A _ B A S E _`). -/
def sdaBaseBytes : List Nat := [95, 83, 68, 65, 95, 66, 65, 83, 69, 95]

/-- `std::string_view symName{&symStrTabSection->data[symbol->name]}`.
With no linked string table the C++ dereferences a null pointer
(undefined); totalised to the empty name. -/
def resolveSymName (strtabOpt : Option Section) (off : Nat) : List Nat :=
  match strtabOpt with
  | some st => cString st.data off
  | none => []

/-- Decoded fields of symbol `i` in a symbol-table payload
(`elf::Symbol`: name u32, value u32, size u32, info u8, other u8,
shndx u16), read at stride `ent`. -/
def symNameOff (data : List Nat) (ent i : Nat) : Nat := readBE32 data (i * ent)

def symValue (data : List Nat) (ent i : Nat) : Nat := readBE32 data (i * ent + 4)

def symSize (data : List Nat) (ent i : Nat) : Nat := readBE32 data (i * ent + 8)

def symType (data : List Nat) (ent i : Nat) : Nat :=
  readByte data (i * ent + 12) % 16

def symShndx (data : List Nat) (ent i : Nat) : Nat := readBE16 data (i * ent + 14)

/-- `targetSection.data.size() ? uint32(data.size()) : uint32(header.size)`. -/
def targetSectionSize (target : Section) : Nat :=
  if target.data.length ≠ 0 then target.data.length % U32
  else target.header.size % U32

/-- The OBJECT/FUNC bounds check of the symbol-table loop body.
`isObject = true` is the `STT_OBJECT` branch (errors 0xBAD00006 /
0xBAD00007, with the `_SDA_BASE_` exception); `isObject = false` is the
`STT_FUNC` branch (errors 0xBAD00008 / 0xBAD00009, no exception). -/
def symbolBoundCheck (rpl : Rpl) (strtabOpt : Option Section)
    (nameOff value size shndx : Nat) (isObject : Bool) : Bool × List Nat :=
  let target := getSec rpl shndx
  let tsize := targetSectionSize target
  if tsize ≠ 0 ∧ target.header.flags &&& SHF_ALLOC ≠ 0 then
    let nullOk : Bool := decide (target.header.type ≠ SHT_NULL)
    let nullDiag : List Nat :=
      if target.header.type = SHT_NULL then
        [if isObject then 0xBAD00006 else 0xBAD00008]
      else []
    let position := sub32 value target.header.addr
    if position > tsize ∨ (position + size) % U32 > tsize then
      if isObject ∧ resolveSymName strtabOpt nameOff = sdaBaseBytes then
        (nullOk, nullDiag)
      else
        (false, nullDiag ++ [if isObject then 0xBAD00007 else 0xBAD00009])
    else (nullOk, nullDiag)
  else (true, [])

/-- One iteration of the symbol loop: the symbol's contribution to the
pass result together with its diagnostics.  The name-offset finding
0xBAD00004 is emitted first and — exactly as in the source — contributes
only to the diagnostic list, never to the boolean. -/
def symbolCheck (rpl : Rpl) (strtabOpt : Option Section) (data : List Nat)
    (ent i : Nat) : Bool × List Nat :=
  let nameOff := symNameOff data ent i
  let nameDiag : List Nat :=
    match strtabOpt with
    | some st => if nameOff > st.data.length then [0xBAD00004] else []
    | none => []
  let t := symType data ent i
  let shndx := symShndx data ent i
  let rest : Bool × List Nat :=
    if shndx ≠ 0 ∧ shndx < SHN_LORESERVE ∧ t ≠ STT_SECTION ∧ t ≠ STT_FILE then
      if rpl.header.shnum ≤ shndx then (false, [0xBAD00005])
      else if t = STT_OBJECT then
        symbolBoundCheck rpl strtabOpt nameOff
          (symValue data ent i) (symSize data ent i) shndx true
      else if t = STT_FUNC then
        symbolBoundCheck rpl strtabOpt nameOff
          (symValue data ent i) (symSize data ent i) shndx false
      else (true, [])
    else (true, [])
  (rest.1, nameDiag ++ rest.2)

/-- Outcome of the checks preceding the symbol loop. -/
inductive SymtabPrelim where
  | earlyTrue
  | earlyFalse (diag : Nat)
  | proceed (strtabOpt : Option Section) (ent : Nat)
  deriving Repr, DecidableEq

def symtabPrelim (rpl : Rpl) (s : Section) : SymtabPrelim :=
  if s.header.size = 0 then .earlyTrue
  else if s.header.link ≠ 0 then
    if s.header.link ≥ rpl.header.shnum then .earlyFalse 0xBAD00001
    else if (getSec rpl s.header.link).header.type ≠ SHT_STRTAB then
      .earlyFalse 0xBAD00002
    else checkEnt s (some (getSec rpl s.header.link))
  else checkEnt s none
where
  checkEnt (s : Section) (strtabOpt : Option Section) : SymtabPrelim :=
    let ent := if s.header.entsize ≠ 0 then s.header.entsize else symbolEntSize
    if ent < symbolEntSize then .earlyFalse 0xBAD0002D
    else .proceed strtabOpt ent

/-- `sValidateSymbolTable`: boolean result and diagnostic codes in
emission order. -/
def sValidateSymbolTable (rpl : Rpl) (s : Section) : Bool × List Nat :=
  match symtabPrelim rpl s with
  | .earlyTrue => (true, [])
  | .earlyFalse d => (false, [d])
  | .proceed strtabOpt ent =>
    let n := s.header.size / ent
    let init : Bool × List Nat :=
      if n = 0 then (false, [0xBAD00003]) else (true, [])
    (List.range n).foldl
      (fun acc i =>
        let c := symbolCheck rpl strtabOpt s.data ent i
        (acc.1 && c.1, acc.2 ++ c.2)) init

/-! ## Pass 1 helpers: relocation-table check (`sValidateRelocsAddTable`,
verify.cpp lines 13-75) -/

def sValidateRelocsAddTable (rpl : Rpl) (s : Section) : Bool :=
  if s.header.size = 0 then true
  else
    let ent := if s.header.entsize ≠ 0 then s.header.entsize else relaEntSize
    if ent < relaEntSize then false
    else
      let numRelas := s.header.size / ent
      if numRelas = 0 then false
      else if s.header.link = 0 ∨ s.header.link ≥ rpl.header.shnum then false
      else
        let symSec := getSec rpl s.header.link
        if symSec.header.type ≠ SHT_SYMTAB then false
        else
          let symEnt := if symSec.header.entsize ≠ 0 then symSec.header.entsize
                        else symbolEntSize
          if symEnt < symbolEntSize then false
          else if s.header.info ≥ rpl.header.shnum then false
          else if (getSec rpl s.header.info).header.type ≠ SHT_NULL then
            let numSymbols := symSec.data.length / symEnt
            (List.range numRelas).all fun i =>
              let info := readBE32 s.data (i * ent + 4)
              !(info ≠ 0 ∧ info / 256 ≥ numSymbols)
          else true

/-! ## Pass 1: file structure (`verifyFile`, verify.cpp lines 185-306) -/

def verifyFile (rpl : Rpl) : Bool :=
  if rpl.fileSize < 0x104 then false
  else
    let h := rpl.header
    let ehsize := if h.ehsize ≠ 0 then h.ehsize else elfHeaderSize
    let phentsize := if h.phentsize ≠ 0 then h.phentsize else 32
    let shentsize := if h.shentsize ≠ 0 then h.shentsize else sectionHeaderSize
    decide (h.magic = HeaderMagic) &&
    decide (h.fileClass = 1) &&
    decide (h.elfVersion ≤ 1) &&
    decide (h.machine ≠ 0) &&
    decide (h.version = 1) &&
    decide (h.ehsize = 0 ∨ elfHeaderSize ≤ h.ehsize) &&
    decide (h.phoff = 0 ∨ (ehsize ≤ h.phoff ∧ h.phoff < rpl.fileSize)) &&
    decide (h.shoff = 0 ∨ (ehsize ≤ h.shoff ∧ h.shoff < rpl.fileSize)) &&
    decide (h.shstrndx = 0 ∨ h.shstrndx < h.shnum) &&
    decide (h.phoff = 0 ∨ (h.phoff + phentsize * h.phnum) % U32 ≤ rpl.fileSize) &&
    decide (h.shoff = 0 ∨ (h.shoff + shentsize * h.shnum) % U32 ≤ rpl.fileSize) &&
    (rpl.sections.all fun s =>
      decide (s.header.size = 0 ∨ s.header.type = SHT_NOBITS ∨
        (ehsize ≤ s.header.offset ∧
          ¬(h.shoff ≤ s.header.offset ∧
            s.header.offset < (h.shoff + h.shnum * shentsize) % U32)))) &&
    (if h.shstrndx ≠ 0 then
        let st := getSec rpl h.shstrndx
        if st.header.type ≠ SHT_STRTAB then false
        else rpl.sections.all fun s => decide (s.header.name < st.data.length)
      else true) &&
    (rpl.sections.all fun s =>
      if s.header.type = SHT_RELA then sValidateRelocsAddTable rpl s
      else if s.header.type = SHT_SYMTAB then (sValidateSymbolTable rpl s).1
      else true)

/-! ## Section loader (`readSection`, main.cpp lines 50-113) -/

/-- `fh.read` into a zero-filled resized buffer: bytes past the end of
the file stay 0. -/
def readBytes (file : List Nat) (off len : Nat) : List Nat :=
  (List.range len).map fun i => (file.getD (off + i) 0) % 256

def Z_OK : Int := 0

def Z_STREAM_END : Int := 1

/-- Tool exit statuses (main.cpp lines 20-25). -/
def ERROR_BAD_INPUT : Nat := 3

/-- The zlib `inflate` call the compressed-section branch constructs:
the input buffer holds the `size - 4` file bytes following the 4-byte
big-endian decompressed-size field, `avail_in` is set (as the source
does) to the full declared `section.header.size`, and `avail_out` is the
decoded decompressed size the payload buffer was resized to. -/
structure InflateCall where
  input : List Nat
  availIn : Nat
  availOut : Nat
  deriving Repr, DecidableEq

def readSectionInflateCall (file : List Nat) (hdr : SectionHeader) :
    Option InflateCall :=
  if hdr.type = SHT_NOBITS ∨ hdr.size = 0 then none
  else if hdr.flags &&& SHF_DEFLATED ≠ 0 then
    some { input := readBytes file (hdr.offset + 4) (hdr.size - 4),
           availIn := hdr.size,
           availOut := readBE32 file hdr.offset }
  else none

/-- `readSection`'s outcome given the return codes of the two zlib calls
and the bytes zlib writes into the output buffer: `(success, payload)`.
On a decompression failure the payload is cleared (`section.data.clear()`)
and the function returns `false`. -/
def readSectionResult (file : List Nat) (hdr : SectionHeader)
    (initRet infRet : Int) (inflated : List Nat) : Bool × List Nat :=
  if hdr.type = SHT_NOBITS ∨ hdr.size = 0 then (true, [])
  else if hdr.flags &&& SHF_DEFLATED ≠ 0 then
    if initRet ≠ Z_OK then (false, [])
    else if infRet ≠ Z_OK ∧ infRet ≠ Z_STREAM_END then (false, [])
    else (true, inflated)
  else (true, readBytes file hdr.offset hdr.size)

/-- The fixed-size section-header record read at a file offset
(ten big-endian 32-bit fields). -/
def parseSectionHeader (file : List Nat) (off : Nat) : SectionHeader :=
  { name := readBE32 file off
    type := readBE32 file (off + 4)
    flags := readBE32 file (off + 8)
    addr := readBE32 file (off + 12)
    offset := readBE32 file (off + 16)
    size := readBE32 file (off + 20)
    link := readBE32 file (off + 24)
    info := readBE32 file (off + 28)
    addralign := readBE32 file (off + 32)
    entsize := readBE32 file (off + 36) }

/-- One iteration of the section loop in `main` (lines 228-238): read the
header at `shoff + shentsize * i`, materialise the payload; a failed
`readSection` yields `ERROR_BAD_INPUT`.  The zlib oracle gives, per
section index, the two zlib return codes and the inflated bytes. -/
def loadSection (file : List Nat) (h : ElfHeader)
    (zlib : Nat → Int × Int × List Nat) (i : Nat) : Except Nat Section :=
  let hdr := parseSectionHeader file (h.shoff + h.shentsize * i)
  let z := zlib i
  let r := readSectionResult file hdr z.1 z.2.1 z.2.2
  if r.1 then .ok ⟨hdr, [], r.2⟩ else .error ERROR_BAD_INPUT

def loadSectionsAux (file : List Nat) (h : ElfHeader)
    (zlib : Nat → Int × Int × List Nat) : Nat → Nat → Except Nat (List Section)
  | _, 0 => .ok []
  | i, n + 1 =>
    match loadSection file h zlib i with
    | .error e => .error e
    | .ok s =>
      match loadSectionsAux file h zlib (i + 1) n with
      | .error e => .error e
      | .ok rest => .ok (s :: rest)

def loadSections (file : List Nat) (h : ElfHeader)
    (zlib : Nat → Int × Int × List Nat) : Except Nat (List Section) :=
  loadSectionsAux file h zlib 0 h.shnum

/-! ## The tool pipeline (`main`, lines 219-252): load, resolve names,
then run the six validator passes. -/

/-- The six pass results, in the order `main` invokes them; `none` is the
out-of-range section-order lookup (shnum < 2). -/
def runAllPasses (rpl : Rpl) : Option (List Bool) :=
  match verifySectionOrder rpl with
  | none => none
  | some r6 =>
    some [verifyFile rpl, (verifyCrcs rpl).1, verifyFileBounds rpl,
          (verifyRelocationTypes rpl).1, verifySectionAlignment rpl, r6.1]

/-- The conjunction of the pass results (spec sections 4.3 and 7: the
overall accept/reject verdict is the AND of the passes; the tool itself
only reports the findings and keeps running). -/
def overallVerdict (rpl : Rpl) : Option Bool :=
  (runAllPasses rpl).map fun l => l.all id

/-- The whole read-and-validate phase of `main`: magic check, section
loading (aborting with `ERROR_BAD_INPUT` on a failed section read),
name resolution against the `shstrndx` string table, then the six
passes.  `Rpl.fileSize` (set by the loader declared in the missing
`elf.h`) is modelled from the spec as the input file's size. -/
def mainResult (file : List Nat) (h : ElfHeader)
    (zlib : Nat → Int × Int × List Nat) : Except Nat (Option (List Bool)) :=
  if h.magic ≠ HeaderMagic then .error ERROR_BAD_INPUT
  else
    match loadSections file h zlib with
    | .error e => .error e
    | .ok secs =>
      let shStrTab := (secs.getD h.shstrndx emptySection).data
      let named := secs.map fun s => { s with name := cString shStrTab s.header.name }
      .ok (runAllPasses ⟨h, named, file.length⟩)

/-! ## Concrete containers used by witnesses and counterexamples -/

/-- A minimal plausible ELF header with `shnum` sections. -/
def mkHeader (shnum : Nat) : ElfHeader :=
  ⟨HeaderMagic, 1, 2, 1, 0xCA, 0x14, 1, 0, 0, 52, 0, 52, 0, 0, 40, shnum, 0⟩

/-- Two empty sections. -/
def rplTwo : Rpl := ⟨mkHeader 2, [emptySection, emptySection], 0x104⟩

/-- One empty section. -/
def rplOne : Rpl := ⟨mkHeader 1, [emptySection], 0x104⟩

/-! ## Shared helper lemmas -/

lemma sectionOrder_some_of (rpl : Rpl) (h2 : 2 ≤ rpl.header.shnum)
    (hlen : rpl.header.shnum = rpl.sections.length) :
    ∃ d1 d2, verifySectionOrder rpl = some (true, d1, d2) := by
  have hA : (0 : Int) ≤ (rpl.header.shnum : Int) - 1 ∧
      ((rpl.header.shnum : Int) - 1).toNat < rpl.sections.length := by omega
  have hB : (0 : Int) ≤ (rpl.header.shnum : Int) - 2 ∧
      ((rpl.header.shnum : Int) - 2).toNat < rpl.sections.length := by omega
  unfold verifySectionOrder getSecInt
  rw [dif_pos hA, dif_pos hB]
  exact ⟨_, _, rfl⟩

/-! ## Claim C9 -/

/-- C9: the Section-Order pass (`verifySectionOrder`) returns success for
every container with at least two sections; a wrong type or a compressed
flag on the last / second-to-last section only yields the diagnostic
components, never a `false` result. -/
theorem sectionOrder_never_fails (rpl : Rpl) (h2 : 2 ≤ rpl.header.shnum)
    (hlen : rpl.header.shnum = rpl.sections.length) :
    ∃ d1 d2, verifySectionOrder rpl = some (true, d1, d2) :=
  sectionOrder_some_of rpl h2 hlen

/-- Witness for C9: a concrete two-section container, whose last section is
neither file-info nor CRC-table, still passes the Section-Order check. -/
theorem sectionOrder_never_fails_witness :
    2 ≤ rplTwo.header.shnum ∧
    ∃ d1 d2, verifySectionOrder rplTwo = some (true, d1, d2) :=
  ⟨by decide, sectionOrder_never_fails rplTwo (by decide) (by decide)⟩

/-! ## Claim C10 -/

/-- C10: the Section-Order pass reads the sections at indices `shnum - 1`
and `shnum - 2` before any check, so it is well-defined exactly when the
container has at least two sections: in the total embedding the lookup's
error branch (`none`) is taken if and only if there are fewer than two. -/
theorem sectionOrder_oob_when_lt_two (rpl : Rpl)
    (hlen : rpl.header.shnum = rpl.sections.length) :
    verifySectionOrder rpl = none ↔ rpl.sections.length < 2 := by
  constructor
  · intro h
    by_contra hlt
    push_neg at hlt
    obtain ⟨d1, d2, hs⟩ := sectionOrder_some_of rpl (by omega) hlen
    rw [hs] at h
    exact absurd h (by simp)
  · intro h
    have hnone : getSecInt rpl ((rpl.header.shnum : Int) - 2) = none := by
      unfold getSecInt
      rw [dif_neg]
      omega
    unfold verifySectionOrder
    rw [hnone]
    cases getSecInt rpl ((rpl.header.shnum : Int) - 1) <;> rfl

/-- Witness for C10: on a concrete one-section container the out-of-range
branch is actually taken. -/
theorem sectionOrder_oob_witness :
    verifySectionOrder rplOne = none :=
  (sectionOrder_oob_when_lt_two rplOne (by decide)).mpr (by decide)

/-! ## Claim C1 -/

/-- C1: the tool runs all six validator passes on the loaded container —
each entry of `runAllPasses` is that pass's result applied to the same
container, independent of the other passes' outcomes, so no failure
prevents a later pass from running — and the overall accept/reject
verdict is the logical AND of the six boolean results. -/
theorem allPasses_run_and_verdict_is_and (rpl : Rpl) (r : Bool × Bool × Bool)
    (h : verifySectionOrder rpl = some r) :
    runAllPasses rpl =
      some [verifyFile rpl, (verifyCrcs rpl).1, verifyFileBounds rpl,
            (verifyRelocationTypes rpl).1, verifySectionAlignment rpl, r.1] ∧
    overallVerdict rpl =
      some (verifyFile rpl && ((verifyCrcs rpl).1 && (verifyFileBounds rpl &&
            ((verifyRelocationTypes rpl).1 && (verifySectionAlignment rpl && r.1))))) := by
  unfold overallVerdict runAllPasses
  rw [h]
  simp [List.all]

/-- Witness for C1: the six pass results and the AND verdict on a concrete
two-section container. -/
theorem allPasses_run_witness :
    runAllPasses rplTwo =
      some [verifyFile rplTwo, (verifyCrcs rplTwo).1, verifyFileBounds rplTwo,
            (verifyRelocationTypes rplTwo).1, verifySectionAlignment rplTwo, true] :=
  (allPasses_run_and_verdict_is_and rplTwo (true, true, true) (by decide)).1

/-! ## Claim C3 -/

/-- C3: the File-Bounds Layout pass — with sections classified into text /
read / data / temp by `rawExtents` and empty buckets defaulted along the
data→read→text→temp chain by `fallbackExtents` (data falling back to the
end of the section-header table) — succeeds if and only if the four
extents are in non-overlapping ascending order: data starts at or after
the section-header table offset, `dataMax ≤ readMin`,
`readMax ≤ textMin`, `textMax ≤ tempMin`, and `min ≤ max` within every
bucket.  (The source's three extra comparisons `dataMin ≤ readMin`,
`readMin ≤ textMin`, `textMin ≤ tempMin` are implied.) -/
theorem fileBounds_iff_ordered (rpl : Rpl) :
    verifyFileBounds rpl = true ↔
      (rpl.header.shoff ≤ (fallbackExtents rpl).1.min ∧
       (fallbackExtents rpl).1.min ≤ (fallbackExtents rpl).1.max ∧
       (fallbackExtents rpl).1.max ≤ (fallbackExtents rpl).2.1.min ∧
       (fallbackExtents rpl).2.1.min ≤ (fallbackExtents rpl).2.1.max ∧
       (fallbackExtents rpl).2.1.max ≤ (fallbackExtents rpl).2.2.1.min ∧
       (fallbackExtents rpl).2.2.1.min ≤ (fallbackExtents rpl).2.2.1.max ∧
       (fallbackExtents rpl).2.2.1.max ≤ (fallbackExtents rpl).2.2.2.min ∧
       (fallbackExtents rpl).2.2.2.min ≤ (fallbackExtents rpl).2.2.2.max) := by
  unfold verifyFileBounds checkExtents
  rcases hE : fallbackExtents rpl with ⟨d, r, t, p⟩
  simp only [Bool.and_eq_true, decide_eq_true_eq]
  omega

/-! ## Claim C2 -/

lemma crcMismatches_mem (rpl : Rpl) (crcData : List Nat) (i : Nat)
    (hi : i < rpl.sections.length) :
    (i, crcTableEntry crcData i, expectedCrc (getSec rpl i)) ∈ crcMismatches rpl crcData ↔
      expectedCrc (getSec rpl i) ≠ crcTableEntry crcData i := by
  unfold crcMismatches
  rw [List.mem_filterMap]
  constructor
  · rintro ⟨j, _, hfj⟩
    by_cases hne : expectedCrc (getSec rpl j) ≠ crcTableEntry crcData j
    · rw [if_pos hne] at hfj
      simp only [Option.some.injEq, Prod.mk.injEq] at hfj
      obtain ⟨rfl, -⟩ := hfj
      exact hne
    · rw [if_neg hne] at hfj
      exact absurd hfj (by simp)
  · intro hne
    exact ⟨i, List.mem_range.mpr hi, by rw [if_pos hne]⟩

lemma crcMismatches_empty (rpl : Rpl) (crcData : List Nat) :
    (crcMismatches rpl crcData).isEmpty = true ↔
      ∀ i, i < rpl.sections.length →
        expectedCrc (getSec rpl i) = crcTableEntry crcData i := by
  rw [List.isEmpty_iff]
  unfold crcMismatches
  rw [List.filterMap_eq_nil_iff]
  constructor
  · intro hn i hi
    have h := hn i (List.mem_range.mpr hi)
    by_contra hne
    rw [if_pos hne] at h
    exact absurd h (by simp)
  · intro ha i hmem
    rw [if_neg]
    intro hne
    exact hne (ha i (List.mem_range.mp hmem))

/-- C2: given a CRC-table section, `verifyCrcs` computes for every section
ordinal the expected CRC (`expectedCrc`: the seed 0 for the CRC-table
section itself or an empty payload, otherwise the zlib CRC-32 of the
decompressed payload), succeeds iff every ordinal's expected CRC equals
the stored 32-bit entry at the same index, and its reported mismatch list
contains the `(index, stored, computed)` finding for an ordinal iff that
ordinal mismatches — so every mismatch is reported and none aborts the
scan. -/
theorem verifyCrcs_spec (rpl : Rpl) (cs : Section)
    (h : findCrcSection rpl = some cs) :
    ((verifyCrcs rpl).1 = true ↔
      ∀ i, i < rpl.sections.length →
        expectedCrc (getSec rpl i) = crcTableEntry cs.data i) ∧
    ∀ i, i < rpl.sections.length →
      ((i, crcTableEntry cs.data i, expectedCrc (getSec rpl i)) ∈ (verifyCrcs rpl).2 ↔
        expectedCrc (getSec rpl i) ≠ crcTableEntry cs.data i) := by
  unfold verifyCrcs
  rw [h]
  exact ⟨crcMismatches_empty rpl cs.data, fun i hi => crcMismatches_mem rpl cs.data i hi⟩

/-- CRC-table section used by the C2 witness. -/
def crcSecW : Section :=
  ⟨⟨0, SHT_RPL_CRCS, 0, 0, 52, 4, 0, 0, 0, 0⟩, [], [0, 0, 0, 0]⟩

/-- Container with a single CRC-table section whose stored entry is the
seed value. -/
def rplCrcW : Rpl := ⟨mkHeader 1, [crcSecW], 0x104⟩

/-- Witness for C2: on the concrete container the CRC pass succeeds, and
indeed its only section (the CRC table itself) expects the seed value
stored in its table. -/
theorem verifyCrcs_spec_witness : (verifyCrcs rplCrcW).1 = true :=
  ((verifyCrcs_spec rplCrcW crcSecW (by decide)).1).mpr (by decide)

/-! ## Claim C7 -/

lemma collectUnsupported_go (ts : List Nat) (acc : List Nat) (hnd : acc.Nodup) :
    (ts.foldl (fun a t => if t ∈ relocWhitelist ∨ t ∈ a then a else a ++ [t]) acc).Nodup ∧
    ∀ x, x ∈ ts.foldl (fun a t => if t ∈ relocWhitelist ∨ t ∈ a then a else a ++ [t]) acc ↔
      x ∈ acc ∨ (x ∈ ts ∧ x ∉ relocWhitelist) := by
  induction ts generalizing acc with
  | nil => simpa using hnd
  | cons t ts ih =>
    simp only [List.foldl_cons]
    by_cases hc : t ∈ relocWhitelist ∨ t ∈ acc
    · rw [if_pos hc]
      obtain ⟨h1, h2⟩ := ih acc hnd
      refine ⟨h1, fun x => ?_⟩
      rw [h2]
      simp only [List.mem_cons]
      constructor
      · tauto
      · rintro (hx | ⟨(rfl | hx), hw⟩)
        · exact Or.inl hx
        · rcases hc with hc | hc
          · exact absurd hc hw
          · exact Or.inl hc
        · exact Or.inr ⟨hx, hw⟩
    · rw [if_neg hc]
      push_neg at hc
      obtain ⟨hw, ha⟩ := hc
      have hnd' : (acc ++ [t]).Nodup := by
        simp [List.nodup_append, hnd, ha]
      obtain ⟨h1, h2⟩ := ih (acc ++ [t]) hnd'
      refine ⟨h1, fun x => ?_⟩
      rw [h2]
      simp only [List.mem_append, List.mem_cons, List.not_mem_nil, or_false]
      constructor
      · rintro ((hx | rfl) | ⟨hx, hxw⟩)
        · exact Or.inl hx
        · exact Or.inr ⟨Or.inl rfl, hw⟩
        · exact Or.inr ⟨Or.inr hx, hxw⟩
      · rintro (hx | ⟨(rfl | hx), hxw⟩)
        · exact Or.inl (Or.inl hx)
        · exact Or.inl (Or.inr rfl)
        · exact Or.inr ⟨hx, hxw⟩

/-- C7: the Relocation-Type Whitelist pass decodes the low 8 bits of each
relocation record's packed `info` field (`relaType`, over every
relocation-table section: `allRelocTypes`), succeeds if and only if every
decoded type is in the fixed 20-entry whitelist, and reports each
distinct unsupported type exactly once — its report list counts an
unsupported type once no matter how many records carry it, and never
mentions supported or absent types. -/
theorem relocationTypes_spec (rpl : Rpl) :
    ((verifyRelocationTypes rpl).1 = true ↔
      ∀ t ∈ allRelocTypes rpl, t ∈ relocWhitelist) ∧
    ∀ t, (verifyRelocationTypes rpl).2.count t =
      if t ∈ allRelocTypes rpl ∧ t ∉ relocWhitelist then 1 else 0 := by
  obtain ⟨hnd, hmem⟩ := collectUnsupported_go (allRelocTypes rpl) [] List.nodup_nil
  have hstep : ∀ x, x ∈ collectUnsupported (allRelocTypes rpl) ↔
      x ∈ allRelocTypes rpl ∧ x ∉ relocWhitelist := by
    intro x
    rw [collectUnsupported, hmem]
    simp
  have hnd' : (collectUnsupported (allRelocTypes rpl)).Nodup := hnd
  constructor
  · rw [verifyRelocationTypes]
    simp only [List.isEmpty_iff]
    rw [List.eq_nil_iff_forall_not_mem]
    constructor
    · intro hn t ht
      by_contra hw
      exact hn t ((hstep t).mpr ⟨ht, hw⟩)
    · intro ha t ht
      obtain ⟨h1, h2⟩ := (hstep t).mp ht
      exact h2 (ha t h1)
  · intro t
    by_cases hin : t ∈ allRelocTypes rpl ∧ t ∉ relocWhitelist
    · rw [if_pos hin]
      exact List.count_eq_one_of_mem hnd' ((hstep t).mpr hin)
    · rw [if_neg hin]
      exact List.count_eq_zero_of_not_mem (fun hm => hin ((hstep t).mp hm))

/-! ## Claim C5 -/

/-- A 14-byte file: 4-byte big-endian decompressed size (6), then 6
compressed-stream bytes, then 4 unrelated bytes. -/
def c5File : List Nat := [0, 0, 0, 6, 1, 2, 3, 4, 5, 6, 9, 9, 9, 9]

/-- A compressed (`SHF_DEFLATED`) section of declared size 10 at file
offset 0. -/
def c5Hdr : SectionHeader := ⟨0, SHT_PROGBITS, SHF_DEFLATED, 0, 0, 10, 0, 0, 0, 0⟩

/-- The inflate call the loader actually builds for `c5Hdr`. -/
def c5Call : InflateCall := ⟨[1, 2, 3, 4, 5, 6], 10, 6⟩

/-- C5 (bug evaluation): for the concrete compressed section, the loader
reads the 4-byte big-endian decompressed size at the section offset and
allocates the output buffer of exactly that size, and fills the input
buffer with exactly `declaredSize - 4` file bytes taken right after the
size field — but it sets the stream's `avail_in` to the full declared
size (`stream.avail_in = section.header.size`, main.cpp line 91), four
bytes more than the input buffer it read from the file contains, instead
of the `declaredSize - 4` the spec states. -/
theorem readSection_availIn_bug :
    readSectionInflateCall c5File c5Hdr = some c5Call ∧
    c5Call.input = readBytes c5File (c5Hdr.offset + 4) (c5Hdr.size - 4) ∧
    c5Call.input.length = c5Hdr.size - 4 ∧
    c5Call.availOut = readBE32 c5File c5Hdr.offset ∧
    c5Call.availIn = c5Hdr.size ∧
    c5Call.availIn ≠ c5Call.input.length := by decide

/-! ## Claim C6 -/

lemma loadSection_cases (file : List Nat) (h : ElfHeader)
    (zlib : Nat → Int × Int × List Nat) (i : Nat) :
    loadSection file h zlib i = .error ERROR_BAD_INPUT ∨
    ∃ s, loadSection file h zlib i = .ok s := by
  unfold loadSection
  by_cases hr : (readSectionResult file
      (parseSectionHeader file (h.shoff + h.shentsize * i))
      (zlib i).1 (zlib i).2.1 (zlib i).2.2).1 = true
  · right
    refine ⟨⟨parseSectionHeader file (h.shoff + h.shentsize * i), [],
      (readSectionResult file (parseSectionHeader file (h.shoff + h.shentsize * i))
        (zlib i).1 (zlib i).2.1 (zlib i).2.2).2⟩, ?_⟩
    simp [hr]
  · left
    simp [hr]

lemma loadSectionsAux_error_code (file : List Nat) (h : ElfHeader)
    (zlib : Nat → Int × Int × List Nat) :
    ∀ n i e, loadSectionsAux file h zlib i n = .error e → e = ERROR_BAD_INPUT := by
  intro n
  induction n with
  | zero =>
    intro i e he
    simp [loadSectionsAux] at he
  | succ m ih =>
    intro i e he
    rw [loadSectionsAux] at he
    rcases loadSection_cases file h zlib i with hl | ⟨s, hl⟩
    · rw [hl] at he
      cases he
      rfl
    · rw [hl] at he
      cases haux : loadSectionsAux file h zlib (i + 1) m with
      | error eb =>
        rw [haux] at he
        cases he
        exact ih (i + 1) _ haux
      | ok rest =>
        rw [haux] at he
        exact absurd he (by simp)

lemma loadSectionsAux_ok_of (file : List Nat) (h : ElfHeader)
    (zlib : Nat → Int × Int × List Nat) :
    ∀ n i l, loadSectionsAux file h zlib i n = .ok l →
      ∀ j, j < n → ∃ s, loadSection file h zlib (i + j) = .ok s := by
  intro n
  induction n with
  | zero =>
    intro i l _ j hj
    exact absurd hj (by omega)
  | succ m ih =>
    intro i l hok j hj
    rw [loadSectionsAux] at hok
    cases hl : loadSection file h zlib i with
    | error eb =>
      rw [hl] at hok
      exact absurd hok (by simp)
    | ok s =>
      rw [hl] at hok
      cases haux : loadSectionsAux file h zlib (i + 1) m with
      | error eb =>
        rw [haux] at hok
        exact absurd hok (by simp)
      | ok rest =>
        by_cases hj0 : j = 0
        · subst hj0
          exact ⟨s, by rw [Nat.add_zero]; exact hl⟩
        · obtain ⟨s2, hs2⟩ := ih (i + 1) rest haux (j - 1) (by omega)
          exact ⟨s2, by rw [show i + j = i + 1 + (j - 1) from by omega]; exact hs2⟩

/-- C6: loading a compressed section fails if and only if zlib stream
initialisation does not return `Z_OK` or inflation returns neither `Z_OK`
nor `Z_STREAM_END`; on such a failure the section's payload is cleared
(never a truncated prefix); and the failure is fatal: if any section of
the load loop fails this way, the whole tool run aborts with the
malformed-input status `ERROR_BAD_INPUT` and no validation pass result is
ever produced. -/
theorem compressedSection_failure_spec (file : List Nat) (hdr : SectionHeader)
    (initRet infRet : Int) (inflated : List Nat)
    (hc : hdr.flags &&& SHF_DEFLATED ≠ 0) (hnb : hdr.type ≠ SHT_NOBITS)
    (hsz : hdr.size ≠ 0) :
    ((readSectionResult file hdr initRet infRet inflated).1 = false ↔
      (initRet ≠ Z_OK ∨ (infRet ≠ Z_OK ∧ infRet ≠ Z_STREAM_END))) ∧
    ((readSectionResult file hdr initRet infRet inflated).1 = false →
      (readSectionResult file hdr initRet infRet inflated).2 = []) ∧
    (∀ (h : ElfHeader) (zlib : Nat → Int × Int × List Nat) (i : Nat),
      i < h.shnum →
      parseSectionHeader file (h.shoff + h.shentsize * i) = hdr →
      zlib i = (initRet, infRet, inflated) →
      (readSectionResult file hdr initRet infRet inflated).1 = false →
      mainResult file h zlib = .error ERROR_BAD_INPUT) := by
  have hng : ¬(hdr.type = SHT_NOBITS ∨ hdr.size = 0) := by
    rintro (h1 | h2)
    exacts [hnb h1, hsz h2]
  have hred : readSectionResult file hdr initRet infRet inflated =
      (if initRet ≠ Z_OK then (false, [])
       else if infRet ≠ Z_OK ∧ infRet ≠ Z_STREAM_END then (false, [])
       else (true, inflated)) := by
    rw [readSectionResult, if_neg hng, if_pos hc]
  refine ⟨?_, ?_, ?_⟩
  · rw [hred]
    by_cases h1 : initRet ≠ Z_OK
    · simp [h1]
    · by_cases h2 : infRet ≠ Z_OK ∧ infRet ≠ Z_STREAM_END
      · simp [h1, h2]
      · simp [h1, h2]
  · rw [hred]
    by_cases h1 : initRet ≠ Z_OK
    · simp [h1]
    · by_cases h2 : infRet ≠ Z_OK ∧ infRet ≠ Z_STREAM_END
      · simp [h1, h2]
      · simp [h1, h2]
  · intro h zlib i hi hph hz hfail
    have hsec : loadSection file h zlib i = .error ERROR_BAD_INPUT := by
      unfold loadSection
      rw [hph, hz]
      simp only [hfail]
      rfl
    unfold mainResult
    by_cases hm : h.magic ≠ HeaderMagic
    · rw [if_pos hm]
    · rw [if_neg hm]
      cases hload : loadSections file h zlib with
      | error e =>
        rw [loadSectionsAux_error_code file h zlib h.shnum 0 e hload]
      | ok secs =>
        obtain ⟨s, hs⟩ := loadSectionsAux_ok_of file h zlib h.shnum 0 secs hload i hi
        rw [Nat.zero_add] at hs
        rw [hsec] at hs
        exact absurd hs (by simp)

/-- Section-header bytes for the C6 witness: a 40-byte file encoding one
section header: `flags = SHF_DEFLATED`, `offset = 40`, `size = 8`. -/
def c6File : List Nat :=
  [0, 0, 0, 0,  0, 0, 0, 1,  0x08, 0, 0, 0,  0, 0, 0, 0,  0, 0, 0, 40,
   0, 0, 0, 8,  0, 0, 0, 0,  0, 0, 0, 0,  0, 0, 0, 0,  0, 0, 0, 0]

def c6Header : ElfHeader := { mkHeader 1 with shoff := 0 }

/-- zlib oracle for the C6 witness: `inflateInit` succeeds, `inflate`
returns `Z_DATA_ERROR` (-3). -/
def c6Zlib : Nat → Int × Int × List Nat := fun _ => (Z_OK, -3, [])

/-- Witness for C6: on the concrete malformed container the whole run
aborts with `ERROR_BAD_INPUT`. -/
theorem compressedSection_failure_witness :
    mainResult c6File c6Header c6Zlib = .error ERROR_BAD_INPUT :=
  (compressedSection_failure_spec c6File
      (parseSectionHeader c6File (c6Header.shoff + c6Header.shentsize * 0))
      Z_OK (-3) [] (by decide) (by decide) (by decide)).2.2
    c6Header c6Zlib 0 (by decide) rfl rfl (by decide)

/-! ## Claims C4 and C8: structure of the symbol-table check -/

/-- The target section a symbol's `shndx` points at. -/
def symTarget (rpl : Rpl) (data : List Nat) (ent i : Nat) : Section :=
  getSec rpl (symShndx data ent i)

/-- `position = symbol->value - targetSection.header.addr` (32-bit). -/
def symPosition (rpl : Rpl) (data : List Nat) (ent i : Nat) : Nat :=
  sub32 (symValue data ent i) (symTarget rpl data ent i).header.addr

/-- The object/function bounds condition of the source:
`position > targetSectionSize || position + symbol->size > targetSectionSize`. -/
def symBoundViolated (rpl : Rpl) (data : List Nat) (ent i : Nat) : Prop :=
  symPosition rpl data ent i > targetSectionSize (symTarget rpl data ent i) ∨
  (symPosition rpl data ent i + symSize data ent i) % U32 >
    targetSectionSize (symTarget rpl data ent i)

instance (rpl : Rpl) (data : List Nat) (ent i : Nat) :
    Decidable (symBoundViolated rpl data ent i) := by
  unfold symBoundViolated
  infer_instance

lemma symFold_fst (c : Nat → Bool × List Nat) (l : List Nat)
    (init : Bool × List Nat) :
    (l.foldl (fun acc i => (acc.1 && (c i).1, acc.2 ++ (c i).2)) init).1 =
      (init.1 && l.all fun i => (c i).1) := by
  induction l generalizing init with
  | nil => simp
  | cons x xs ih =>
    rw [List.foldl_cons, ih]
    simp [Bool.and_assoc]

lemma symFold_snd_mem (c : Nat → Bool × List Nat) (l : List Nat)
    (init : Bool × List Nat) (d : Nat) :
    d ∈ (l.foldl (fun acc i => (acc.1 && (c i).1, acc.2 ++ (c i).2)) init).2 ↔
      d ∈ init.2 ∨ ∃ i ∈ l, d ∈ (c i).2 := by
  induction l generalizing init with
  | nil => simp
  | cons x xs ih =>
    rw [List.foldl_cons, ih]
    constructor
    · rintro (hd | ⟨i, hi, hdi⟩)
      · rcases List.mem_append.mp hd with h1 | h2
        · exact Or.inl h1
        · exact Or.inr ⟨x, List.mem_cons_self x xs, h2⟩
      · exact Or.inr ⟨i, List.mem_cons_of_mem x hi, hdi⟩
    · rintro (hd | ⟨i, hi, hdi⟩)
      · exact Or.inl (List.mem_append.mpr (Or.inl hd))
      · rcases List.mem_cons.mp hi with rfl | hi2
        · exact Or.inl (List.mem_append.mpr (Or.inr hdi))
        · exact Or.inr ⟨i, hi2, hdi⟩

/-- Once the preliminary checks proceed, the pass is the symbol-loop fold. -/
lemma sValidate_proceed (rpl : Rpl) (s : Section) (strtabOpt : Option Section)
    (ent : Nat) (hp : symtabPrelim rpl s = .proceed strtabOpt ent) :
    sValidateSymbolTable rpl s =
      (List.range (s.header.size / ent)).foldl
        (fun acc i => (acc.1 && (symbolCheck rpl strtabOpt s.data ent i).1,
                       acc.2 ++ (symbolCheck rpl strtabOpt s.data ent i).2))
        (if s.header.size / ent = 0 then (false, [0xBAD00003]) else (true, [])) := by
  unfold sValidateSymbolTable
  rw [hp]

lemma sValidate_fst (rpl : Rpl) (s : Section) (strtabOpt : Option Section)
    (ent : Nat) (hp : symtabPrelim rpl s = .proceed strtabOpt ent)
    (hn : s.header.size / ent ≠ 0) :
    (sValidateSymbolTable rpl s).1 =
      (List.range (s.header.size / ent)).all
        (fun i => (symbolCheck rpl strtabOpt s.data ent i).1) := by
  rw [sValidate_proceed rpl s strtabOpt ent hp, if_neg hn, symFold_fst]
  simp

lemma sValidate_diag_mem (rpl : Rpl) (s : Section) (strtabOpt : Option Section)
    (ent : Nat) (hp : symtabPrelim rpl s = .proceed strtabOpt ent)
    (hn : s.header.size / ent ≠ 0) (d : Nat) :
    d ∈ (sValidateSymbolTable rpl s).2 ↔
      ∃ i ∈ List.range (s.header.size / ent),
        d ∈ (symbolCheck rpl strtabOpt s.data ent i).2 := by
  rw [sValidate_proceed rpl s strtabOpt ent hp, if_neg hn, symFold_snd_mem]
  simp

lemma symbolBoundCheck_fst_false (rpl : Rpl) (strtabOpt : Option Section)
    (nameOff value size shndx : Nat) (isObject : Bool)
    (htsz : targetSectionSize (getSec rpl shndx) ≠ 0)
    (halloc : (getSec rpl shndx).header.flags &&& SHF_ALLOC ≠ 0)
    (hviol : sub32 value (getSec rpl shndx).header.addr >
               targetSectionSize (getSec rpl shndx) ∨
             (sub32 value (getSec rpl shndx).header.addr + size) % U32 >
               targetSectionSize (getSec rpl shndx))
    (hexc : isObject = false ∨ resolveSymName strtabOpt nameOff ≠ sdaBaseBytes) :
    (symbolBoundCheck rpl strtabOpt nameOff value size shndx isObject).1 = false := by
  unfold symbolBoundCheck
  rw [if_pos ⟨htsz, halloc⟩, if_pos hviol, if_neg]
  rintro ⟨hobj, hname⟩
  rcases hexc with h | h
  · rw [h] at hobj
    exact absurd hobj (by simp)
  · exact h hname

lemma symbolBoundCheck_sda_ok (rpl : Rpl) (strtabOpt : Option Section)
    (nameOff value size shndx : Nat)
    (hnull : (getSec rpl shndx).header.type ≠ SHT_NULL)
    (hname : resolveSymName strtabOpt nameOff = sdaBaseBytes) :
    (symbolBoundCheck rpl strtabOpt nameOff value size shndx true).1 = true := by
  unfold symbolBoundCheck
  by_cases h1 : targetSectionSize (getSec rpl shndx) ≠ 0 ∧
      (getSec rpl shndx).header.flags &&& SHF_ALLOC ≠ 0
  · rw [if_pos h1]
    by_cases h2 : sub32 value (getSec rpl shndx).header.addr >
        targetSectionSize (getSec rpl shndx) ∨
      (sub32 value (getSec rpl shndx).header.addr + size) % U32 >
        targetSectionSize (getSec rpl shndx)
    · rw [if_pos h2, if_pos ⟨rfl, hname⟩]
      simp [hnull]
    · rw [if_neg h2]
      simp [hnull]
  · rw [if_neg h1]

lemma symbolCheck_fst_eq_bound (rpl : Rpl) (strtabOpt : Option Section)
    (data : List Nat) (ent i : Nat)
    (hx : symShndx data ent i ≠ 0)
    (hlo : symShndx data ent i < SHN_LORESERVE)
    (hin : symShndx data ent i < rpl.header.shnum)
    (hty : symType data ent i = STT_OBJECT ∨ symType data ent i = STT_FUNC) :
    (symbolCheck rpl strtabOpt data ent i).1 =
      (symbolBoundCheck rpl strtabOpt (symNameOff data ent i)
        (symValue data ent i) (symSize data ent i) (symShndx data ent i)
        (decide (symType data ent i = STT_OBJECT))).1 := by
  have ht3 : symType data ent i ≠ STT_SECTION := by
    rcases hty with h | h <;> rw [h] <;> decide
  have ht4 : symType data ent i ≠ STT_FILE := by
    rcases hty with h | h <;> rw [h] <;> decide
  unfold symbolCheck
  dsimp only
  rw [if_pos ⟨hx, hlo, ht3, ht4⟩, if_neg (Nat.not_le.mpr hin)]
  rcases hty with h | h
  · rw [if_pos h, h]
    rfl
  · have hno : symType data ent i ≠ STT_OBJECT := by rw [h]; decide
    rw [if_neg hno, if_pos h, h]
    rfl

/-! ## Claim C4 -/

/-- C4 (amended): for a symbol of type OBJECT or FUNC whose section index
is a real in-range index and whose target section is allocatable with
nonzero size, a violated bound (`symBoundViolated`) fails the
Symbol-Table check — the `_SDA_BASE_` exception applies **only to
OBJECT-typed symbols**: a FUNC symbol fails regardless of its name, while
an OBJECT symbol named exactly `_SDA_BASE_` contributes no failure. -/
theorem symbolBounds_sda_exception_object_only (rpl : Rpl) (s : Section)
    (strtabOpt : Option Section) (ent i : Nat)
    (hp : symtabPrelim rpl s = .proceed strtabOpt ent)
    (hi : i < s.header.size / ent)
    (hx : symShndx s.data ent i ≠ 0)
    (hlo : symShndx s.data ent i < SHN_LORESERVE)
    (hin : symShndx s.data ent i < rpl.header.shnum)
    (hty : symType s.data ent i = STT_OBJECT ∨ symType s.data ent i = STT_FUNC)
    (htsz : targetSectionSize (symTarget rpl s.data ent i) ≠ 0)
    (halloc : (symTarget rpl s.data ent i).header.flags &&& SHF_ALLOC ≠ 0)
    (hviol : symBoundViolated rpl s.data ent i) :
    ((symType s.data ent i = STT_FUNC ∨
        resolveSymName strtabOpt (symNameOff s.data ent i) ≠ sdaBaseBytes) →
      (sValidateSymbolTable rpl s).1 = false) ∧
    ((symType s.data ent i = STT_OBJECT ∧
        resolveSymName strtabOpt (symNameOff s.data ent i) = sdaBaseBytes ∧
        (symTarget rpl s.data ent i).header.type ≠ SHT_NULL) →
      (symbolCheck rpl strtabOpt s.data ent i).1 = true) := by
  constructor
  · intro hexc
    have hb : (symbolCheck rpl strtabOpt s.data ent i).1 = false := by
      rw [symbolCheck_fst_eq_bound rpl strtabOpt s.data ent i hx hlo hin hty]
      apply symbolBoundCheck_fst_false
      · exact htsz
      · exact halloc
      · exact hviol
      · rcases hexc with h | h
        · left
          rw [h]
          decide
        · right
          exact h
    have hn : s.header.size / ent ≠ 0 := by omega
    rw [sValidate_fst rpl s strtabOpt ent hp hn, List.all_eq_false]
    exact ⟨i, List.mem_range.mpr hi, by simp [hb]⟩
  · rintro ⟨hobj, hname, hnull⟩
    rw [symbolCheck_fst_eq_bound rpl strtabOpt s.data ent i hx hlo hin hty]
    have hd : decide (symType s.data ent i = STT_OBJECT) = true := by
      simp [hobj]
    rw [hd]
    exact symbolBoundCheck_sda_ok rpl strtabOpt _ _ _ _ hnull hname

/-- A string-table section whose payload is `"\0_SDA_BASE_\0"`. -/
def strtab4 : Section :=
  ⟨⟨0, SHT_STRTAB, 0, 0, 0, 12, 0, 0, 0, 0⟩, [],
   [0] ++ sdaBaseBytes ++ [0]⟩

/-- An allocatable 4-byte PROGBITS target section at address 0. -/
def target4 : Section :=
  ⟨⟨0, SHT_PROGBITS, SHF_ALLOC, 0, 0, 4, 0, 0, 0, 0⟩, [], [1, 2, 3, 4]⟩

/-- A symbol table holding one FUNC symbol named `_SDA_BASE_` with
`value = 100` far outside its 4-byte target section (index 2). -/
def symSecFunc : Section :=
  ⟨⟨0, SHT_SYMTAB, 0, 0, 0, 16, 1, 0, 0, 16⟩, [],
   [0, 0, 0, 1,  0, 0, 0, 100,  0, 0, 0, 0,  2, 0,  0, 2]⟩

def rplFunc : Rpl :=
  ⟨mkHeader 4, [emptySection, strtab4, target4, symSecFunc], 0x104⟩

/-- Counterexample to C4 as stated: a FUNC symbol named exactly
`_SDA_BASE_` that violates the bounds condition still fails the
Symbol-Table check — the `_SDA_BASE_` exemption exists only in the
OBJECT branch of the source (verify.cpp lines 146-153), not in the FUNC
branch (lines 169-173). -/
theorem funcSdaSymbol_still_fails :
    symType symSecFunc.data 16 0 = STT_FUNC ∧
    resolveSymName (some strtab4) (symNameOff symSecFunc.data 16 0) = sdaBaseBytes ∧
    symBoundViolated rplFunc symSecFunc.data 16 0 ∧
    (sValidateSymbolTable rplFunc symSecFunc).1 = false := by decide

/-- Like `symSecFunc` but the symbol's type is OBJECT. -/
def symSecObj : Section :=
  ⟨⟨0, SHT_SYMTAB, 0, 0, 0, 16, 1, 0, 0, 16⟩, [],
   [0, 0, 0, 1,  0, 0, 0, 100,  0, 0, 0, 0,  1, 0,  0, 2]⟩

def rplObj : Rpl :=
  ⟨mkHeader 4, [emptySection, strtab4, target4, symSecObj], 0x104⟩

/-- Witness for C4 (amended): an OBJECT symbol named `_SDA_BASE_`
violating the bound contributes no failure to the check. -/
theorem symbolBounds_sda_exception_witness :
    (symbolCheck rplObj (some strtab4) symSecObj.data 16 0).1 = true :=
  (symbolBounds_sda_exception_object_only rplObj symSecObj (some strtab4) 16 0
    (by decide) (by decide) (by decide) (by decide) (by decide) (by decide)
    (by decide) (by decide) (by decide)).2 (by decide)

/-! ## Claim C8 -/

/-- C8: a symbol whose name offset lies beyond the linked string table's
payload produces the reported finding 0xBAD00004 but does not set the
failure flag: whenever the preliminary checks proceed, the table is
non-empty, and every symbol's result-affecting checks hold, the
Symbol-Table check returns success — even with an out-of-range name
offset present — while still reporting the finding. -/
theorem symtab_nameOffset_diag_only (rpl : Rpl) (s : Section)
    (strtabOpt : Option Section) (st : Section) (ent i : Nat)
    (hp : symtabPrelim rpl s = .proceed strtabOpt ent)
    (hn : s.header.size / ent ≠ 0)
    (hall : ∀ j, j < s.header.size / ent →
      (symbolCheck rpl strtabOpt s.data ent j).1 = true)
    (hi : i < s.header.size / ent)
    (hst : strtabOpt = some st)
    (hoor : symNameOff s.data ent i > st.data.length) :
    (sValidateSymbolTable rpl s).1 = true ∧
    (0xBAD00004 : Nat) ∈ (sValidateSymbolTable rpl s).2 := by
  constructor
  · rw [sValidate_fst rpl s strtabOpt ent hp hn, List.all_eq_true]
    intro x hx2
    exact hall x (List.mem_range.mp hx2)
  · rw [sValidate_diag_mem rpl s strtabOpt ent hp hn]
    refine ⟨i, List.mem_range.mpr hi, ?_⟩
    subst hst
    unfold symbolCheck
    dsimp only
    rw [if_pos hoor]
    exact List.mem_append.mpr (Or.inl (List.mem_singleton.mpr rfl))

/-- String table with a 1-byte payload, for the C8 witness. -/
def strtabW8 : Section :=
  ⟨⟨0, SHT_STRTAB, 0, 0, 0, 1, 0, 0, 0, 0⟩, [], [0]⟩

/-- A symbol table holding one symbol whose name offset 5 exceeds the
1-byte string table, with every result-affecting field benign. -/
def symSecW8 : Section :=
  ⟨⟨0, SHT_SYMTAB, 0, 0, 0, 16, 1, 0, 0, 16⟩, [],
   [0, 0, 0, 5,  0, 0, 0, 0,  0, 0, 0, 0,  0, 0,  0, 0]⟩

def rplW8 : Rpl :=
  ⟨mkHeader 3, [emptySection, strtabW8, symSecW8], 0x104⟩

/-- Witness for C8: on the concrete container the check succeeds while
the name-offset finding is reported. -/
theorem symtab_nameOffset_diag_only_witness :
    (sValidateSymbolTable rplW8 symSecW8).1 = true ∧
    (0xBAD00004 : Nat) ∈ (sValidateSymbolTable rplW8 symSecW8).2 :=
  symtab_nameOffset_diag_only rplW8 symSecW8 (some strtabW8) strtabW8 16 0
    (by decide) (by decide) (by decide) (by decide) rfl (by decide)

end ReadRpl
